import Mathlib

/-!
Shallow embedding of the MKS Wi-Fi printer driver
(`src/core/driver/mkswifi.py`, class `MKSPrinter`).

The driver talks a line-oriented protocol over one TCP connection.  We model
the connection as explicit state: a `connected` flag, a script of incoming
read events (`some raw` = a line arrives, `none` = the read times out before
a line arrives), and the trace of wire commands written so far.  Every
Python coroutine of the driver becomes a state-passing function returning
`Except DriverError α × Conn`; exceptions of the Python code become the
`Except.error` values, and the final state is threaded through even on the
error path so that write traces on error paths can be stated.
-/

namespace MKSWifi

/-- Errors raised by the driver, mirroring the Python exceptions:
`RuntimeError("Not connected")` (the spec's `ConnectionError`),
`RuntimeError(raw_line)` on an error-marker reply (the spec's
`ProtocolError`), `asyncio.TimeoutError` from a timed-out read, and
`FileNotFoundError` (the spec's `NotFound`). -/
inductive DriverError where
  | connectionError : DriverError
  | protocolError : String → DriverError
  | timeoutError : DriverError
  | notFound : String → DriverError
deriving Repr, DecidableEq

/-- The connection state of one `MKSPrinter` instance.
`incoming` is the script of read events still to be consumed: each
`_read_raw` call consumes one event, `some raw` standing for a line that
arrived (the undecoded text, stripped inside `_read_raw` as in the source)
and `none` for a read that timed out.  An exhausted script also times out.
`written` is the trace of wire strings written, in order. -/
structure Conn where
  connected : Bool
  incoming : List (Option String)
  written : List String
deriving Repr, DecidableEq

/-- Python `str.strip()`: remove whitespace from both ends. -/
def pyStrip (s : String) : String :=
  ((s.toList.dropWhile Char.isWhitespace).reverse.dropWhile
    Char.isWhitespace).reverse.asString

/-- Python `str.rstrip()`: remove whitespace from the right end. -/
def pyRstrip (s : String) : String :=
  (s.toList.reverse.dropWhile Char.isWhitespace).reverse.asString

/-- Wire form of a command: `f"{gcode.strip()}\r\n"` in `_send_raw`. -/
def wire (gcode : String) : String := pyStrip gcode ++ "\r\n"

/-- Test `first.lower().startswith("error")`: the error-marker test, modelled
per character (lower-case the line, check that it starts with the five
characters of the error marker). -/
def startswithError (s : String) : Bool :=
  List.isPrefixOf ['e', 'r', 'r', 'o', 'r'] (s.toList.map Char.toLower)

/-- Model of `MKSPrinter._send_raw`: raises `RuntimeError("Not connected")` when the
writer is absent, otherwise writes the stripped command plus CRLF. -/
def send_raw (gcode : String) (c : Conn) : Except DriverError Unit × Conn :=
  if c.connected then
    (Except.ok (), { c with written := c.written ++ [wire gcode] })
  else
    (Except.error DriverError.connectionError, c)

/-- Model of `MKSPrinter._read_raw`: raises when not connected, times out when no
line arrives within the read timeout, otherwise returns the decoded,
stripped line. -/
def read_raw (c : Conn) : Except DriverError String × Conn :=
  if c.connected then
    match c.incoming with
    | [] => (Except.error DriverError.timeoutError, c)
    | none :: rest =>
        (Except.error DriverError.timeoutError, { c with incoming := rest })
    | some raw :: rest =>
        (Except.ok (pyStrip raw), { c with incoming := rest })
  else
    (Except.error DriverError.connectionError, c)

/-- Model of `MKSPrinter._read_response`: reads the first line; an error-marker line
raises `ProtocolError`; a bare `"ok"` triggers a second read whose timeout
is swallowed (empty payload); any other first line is the payload itself. -/
def read_response (c : Conn) : Except DriverError String × Conn :=
  match read_raw c with
  | (Except.error e, c1) => (Except.error e, c1)
  | (Except.ok first, c1) =>
    if startswithError first then
      (Except.error (DriverError.protocolError first), c1)
    else if first = "ok" then
      match read_raw c1 with
      | (Except.ok second, c2) =>
          (Except.ok (if second ≠ "" ∧ second ≠ "ok" then second else ""), c2)
      | (Except.error DriverError.timeoutError, c2) => (Except.ok "", c2)
      | (Except.error e, c2) => (Except.error e, c2)
    else
      (Except.ok first, c1)

/-- Model of `MKSPrinter.send`: writes the command, then reads the response; a
timeout raised by `_read_response` (i.e. from the *first* read — the second
read's timeout is already swallowed inside `_read_response`) is caught and
becomes an empty payload. -/
def send (gcode : String) (c : Conn) : Except DriverError String × Conn :=
  match send_raw gcode c with
  | (Except.error e, c1) => (Except.error e, c1)
  | (Except.ok _, c1) =>
    match read_response c1 with
    | (Except.ok s, c2) => (Except.ok s, c2)
    | (Except.error DriverError.timeoutError, c2) => (Except.ok "", c2)
    | (Except.error e, c2) => (Except.error e, c2)

/-!
Telemetry regexes.  The source compiles four patterns and applies
`.search` (leftmost match) to each query payload:
  TEMP_RE  = T:\s*(\d+\.?\d*)/(\d+\.?\d*).*B:\s*(\d+\.?\d*)/(\d+\.?\d*)
  PROG_RE  = M27\s+(\d+)
  TIME_RE  = M992\s+([\d:]+)
  STATE_RE = M997\s+(\w+)
We hand-translate each pattern into a deterministic matcher over `List Char`.
In these patterns greedy repetition never needs backtracking except for the
`.*` of TEMP_RE, which we model by taking the *rightmost* position at which
the `B:` part matches (greedy `.*` semantics).  The payloads come from
`readline` and are stripped, so they contain no newline and the `.` of the
pattern matches every remaining character.
-/

/-- Character class `\w` of the pattern (ASCII word character). -/
def isWordChar (c : Char) : Bool := c.isAlphanum || c = '_'

/-- Pattern `\d+\.?\d*`: an integer or decimal token, greedily matched.
Returns the captured characters and the rest. -/
def matchNum (cs : List Char) : Option (List Char × List Char) :=
  let p := cs.span (·.isDigit)
  if p.1.isEmpty then none
  else
    match p.2 with
    | '.' :: r2 =>
        let q := r2.span (·.isDigit)
        some (p.1 ++ '.' :: q.1, q.2)
    | _ => some (p.1, p.2)

/-- The `B:\s*(\d+\.?\d*)/(\d+\.?\d*)` tail of TEMP_RE, matched at the
start of `cs`; yields the two captured groups. -/
def bHere (cs : List Char) : Option (List Char × List Char) :=
  match cs with
  | 'B' :: ':' :: r1 =>
    let r2 := (r1.span (·.isWhitespace)).2
    match matchNum r2 with
    | none => none
    | some (g3, r3) =>
      match r3 with
      | '/' :: r4 =>
        match matchNum r4 with
        | none => none
        | some (g4, _) => some (g3, g4)
      | _ => none
  | _ => none

/-- Rightmost match of the `B:` part anywhere in `cs`: models the greedy
`.*` that precedes it in TEMP_RE. -/
def bLast : List Char → Option (List Char × List Char)
  | [] => none
  | c :: rest =>
    match bLast rest with
    | some r => some r
    | none => bHere (c :: rest)

/-- TEMP_RE matched at the start of `cs`: `T:` then optional whitespace,
two numbers separated by `/`, then `.*` and the `B:` part. -/
def tempHere (cs : List Char) :
    Option (List Char × List Char × List Char × List Char) :=
  match cs with
  | 'T' :: ':' :: r1 =>
    let r2 := (r1.span (·.isWhitespace)).2
    match matchNum r2 with
    | none => none
    | some (g1, r3) =>
      match r3 with
      | '/' :: r4 =>
        match matchNum r4 with
        | none => none
        | some (g2, r5) =>
          match bLast r5 with
          | none => none
          | some (g3, g4) => some (g1, g2, g3, g4)
      | _ => none
  | _ => none

/-- Search `TEMP_RE.search`: leftmost position at which `tempHere` matches. -/
def tempSearch : List Char → Option (List Char × List Char × List Char × List Char)
  | [] => none
  | c :: rest =>
    match tempHere (c :: rest) with
    | some r => some r
    | none => tempSearch rest

/-- PROG_RE matched at the start of `cs`: `M27`, at least one whitespace,
then the captured digits. -/
def progHere (cs : List Char) : Option (List Char) :=
  match cs with
  | 'M' :: '2' :: '7' :: r1 =>
    let w := r1.span (·.isWhitespace)
    if w.1.isEmpty then none
    else
      let d := w.2.span (·.isDigit)
      if d.1.isEmpty then none else some d.1
  | _ => none

/-- Search `PROG_RE.search`. -/
def progSearch : List Char → Option (List Char)
  | [] => none
  | c :: rest =>
    match progHere (c :: rest) with
    | some r => some r
    | none => progSearch rest

/-- TIME_RE matched at the start of `cs`: `M992`, at least one whitespace,
then the captured `[\d:]+` token. -/
def timeHere (cs : List Char) : Option (List Char) :=
  match cs with
  | 'M' :: '9' :: '9' :: '2' :: r1 =>
    let w := r1.span (·.isWhitespace)
    if w.1.isEmpty then none
    else
      let d := w.2.span (fun c => c.isDigit || c = ':')
      if d.1.isEmpty then none else some d.1
  | _ => none

/-- Search `TIME_RE.search`. -/
def timeSearch : List Char → Option (List Char)
  | [] => none
  | c :: rest =>
    match timeHere (c :: rest) with
    | some r => some r
    | none => timeSearch rest

/-- STATE_RE matched at the start of `cs`: `M997`, at least one whitespace,
then the captured `\w+` token. -/
def stateHere (cs : List Char) : Option (List Char) :=
  match cs with
  | 'M' :: '9' :: '9' :: '7' :: r1 =>
    let w := r1.span (·.isWhitespace)
    if w.1.isEmpty then none
    else
      let d := w.2.span isWordChar
      if d.1.isEmpty then none else some d.1
  | _ => none

/-- Search `STATE_RE.search`. -/
def stateSearch : List Char → Option (List Char)
  | [] => none
  | c :: rest =>
    match stateHere (c :: rest) with
    | some r => some r
    | none => stateSearch rest

/-- Value of a digit string as a natural number (`int(m[1])`). -/
def digitsToNat (cs : List Char) : Nat :=
  cs.foldl (fun n c => n * 10 + (c.toNat - 48)) 0

/-- Conversion `float(m[i])` applied to a token matched by `\d+\.?\d*`: the exact
decimal value as a rational (the driver only ever compares and stores these
values, so the exact decimal faithfully represents the parse). -/
def decToRat (cs : List Char) : ℚ :=
  let p := cs.span (· ≠ '.')
  (digitsToNat p.1 : ℚ) + (digitsToNat (p.2.drop 1) : ℚ) / 10 ^ (p.2.drop 1).length

/-!  The `GCodes` enumeration of wire commands.  The two file-naming
commands are templates (`"M28 {name}"`, `"M23 {name}"`); `.format(name=...)`
interpolates the name, which we expose as the already-formatted string. -/

namespace GCodes

def TEMP_QUERY : String := "M991"
def PROGRESS : String := "M27"
def ELAPSED : String := "M992"
def STATE : String := "M997"
def SD_END : String := "M29"
def SD_START : String := "M24"
def SD_PAUSE : String := "M25"
def SD_ABORT : String := "M26"
def SWITCH_FS : String := "M998"

/-- Result of `GCodes.SD_BEGIN.format(name=...)`: the template with the name
interpolated. -/
def SD_BEGIN_fmt (name : String) : String := "M28 " ++ name

/-- Result of `GCodes.SD_SELECT.format(name=...)`: the template with the name
interpolated. -/
def SD_SELECT_fmt (name : String) : String := "M23 " ++ name

end GCodes

/-- The `temps` object of a snapshot: hotend and bed, actual and target. -/
structure Temps where
  T : ℚ
  Tset : ℚ
  B : ℚ
  Bset : ℚ
deriving Repr, DecidableEq

/-- The `fresh` dict assembled by `poll`: each key is present only when the
corresponding query's payload matched its pattern; `stamp` is set exactly
when at least one other field is present. -/
structure Snapshot where
  temps : Option Temps
  progress : Option Nat
  elapsed : Option String
  state : Option String
  stamp : Option String
deriving Repr, DecidableEq

/-- The empty dict `{}`: the initial value of `self.latest` and the result
of a `poll` in which no query produced parseable data. -/
def emptySnapshot : Snapshot :=
  { temps := none, progress := none, elapsed := none, state := none,
    stamp := none }

/-- One `MKSPrinter` instance: its connection plus the `latest` snapshot. -/
structure Driver where
  conn : Conn
  latest : Snapshot
deriving Repr, DecidableEq

/-- The `temps` value built from the four captured groups of TEMP_RE. -/
def tempsOf (g : List Char × List Char × List Char × List Char) : Temps :=
  { T := decToRat g.1, Tset := decToRat g.2.1,
    B := decToRat g.2.2.1, Bset := decToRat g.2.2.2 }

/-- The `fresh` dict after the four `if m := RE.search(...)` pattern
matches of `poll`, before the timestamping step: each field is present
exactly when its payload matched. -/
def assemble (r1 r2 r3 r4 : String) : Snapshot :=
  { temps := (tempSearch r1.toList).map tempsOf,
    progress := (progSearch r2.toList).map digitsToNat,
    elapsed := (timeSearch r3.toList).map List.asString,
    state := (stateSearch r4.toList).map List.asString,
    stamp := none }

/-- The tail of `poll`: `if fresh:` (the dict is non-empty, i.e. at least
one of the four query fields was obtained) the result is timestamped and
stored as `self.latest`; otherwise the empty dict is returned and `latest`
is untouched. -/
def pollFinish (now : String) (d : Driver) (fresh : Snapshot) (c4 : Conn) :
    Except DriverError Snapshot × Driver :=
  if fresh.temps.isSome || fresh.progress.isSome || fresh.elapsed.isSome
      || fresh.state.isSome then
    let f := { fresh with stamp := some now }
    (Except.ok f, { conn := c4, latest := f })
  else
    (Except.ok fresh, { d with conn := c4 })

/-- Model of `MKSPrinter.poll`: issues the four query commands in order, adds each
field whose payload matches its pattern, and — when at least one field was
obtained — timestamps the result and stores it as `latest`.  The timestamp
`dt.datetime.now().isoformat(timespec="seconds")` is an external input and
is passed in as `now`; the trailing pacing delay `time.sleep(seconds)`
does not affect the state or result and is not modelled. -/
def poll (now : String) (d : Driver) : Except DriverError Snapshot × Driver :=
  match send GCodes.TEMP_QUERY d.conn with
  | (Except.error e, c) => (Except.error e, { d with conn := c })
  | (Except.ok r1, c1) =>
    match send GCodes.PROGRESS c1 with
    | (Except.error e, c) => (Except.error e, { d with conn := c })
    | (Except.ok r2, c2) =>
      match send GCodes.ELAPSED c2 with
      | (Except.error e, c) => (Except.error e, { d with conn := c })
      | (Except.ok r3, c3) =>
        match send GCodes.STATE c3 with
        | (Except.error e, c) => (Except.error e, { d with conn := c })
        | (Except.ok r4, c4) => pollFinish now d (assemble r1 r2 r3 r4) c4

/-- The command sent for one streamed file line:
`line.rstrip()[:127]` (trailing whitespace stripped, truncated to the
128-char firmware limit). -/
def dataCmd (line : String) : String :=
  ((pyRstrip line).toList.take 127).asString

/-- The `for line in fp:` loop of `upload_gcode`: sends each line and
aborts on the first error-prefixed reply. -/
def upload_lines : List String → Conn → Except DriverError Unit × Conn
  | [], c => (Except.ok (), c)
  | line :: rest, c =>
    match send (dataCmd line) c with
    | (Except.error e, c1) => (Except.error e, c1)
    | (Except.ok resp, c1) =>
      if startswithError resp then
        (Except.error (DriverError.protocolError resp), c1)
      else upload_lines rest c1

/-- The `finally:` clause of `upload_gcode`: sends the close-file command;
if that send itself raises, its error replaces the pending outcome,
otherwise the pending outcome stands (Python `finally` semantics). -/
def upload_finally (r : Except DriverError Unit) (c : Conn) :
    Except DriverError Unit × Conn :=
  match send GCodes.SD_END c with
  | (Except.error e, c1) => (Except.error e, c1)
  | (Except.ok _, c1) => (r, c1)

/-- Model of `MKSPrinter.upload_gcode`: the file system is abstracted as the pair
(`isFile` — whether `path.is_file()` holds, `contents` — the lines
`for line in fp:` yields for `path`); `name` is `path.name`. -/
def upload_gcode (isFile : Bool) (name : String) (contents : List String)
    (c : Conn) : Except DriverError Unit × Conn :=
  if isFile then
    match send (GCodes.SD_BEGIN_fmt name) c with
    | (Except.error e, c1) => (Except.error e, c1)
    | (Except.ok ack, c1) =>
      if startswithError ack then
        (Except.error (DriverError.protocolError ack), c1)
      else
        let r := upload_lines contents c1
        upload_finally r.1 r.2
  else
    (Except.error (DriverError.notFound name), c)

/-- Model of `MKSPrinter.start_print`: sends select-file then start/resume. -/
def start_print (filename : String) (c : Conn) :
    Except DriverError Unit × Conn :=
  match send (GCodes.SD_SELECT_fmt filename) c with
  | (Except.error e, c1) => (Except.error e, c1)
  | (Except.ok _, c1) =>
    match send GCodes.SD_START c1 with
    | (Except.error e, c2) => (Except.error e, c2)
    | (Except.ok _, c2) => (Except.ok (), c2)

/-- Model of `MKSPrinter.pause`: sends the pause command. -/
def pause (c : Conn) : Except DriverError String × Conn :=
  send GCodes.SD_PAUSE c

/-- Model of `MKSPrinter.abort`: sends the abort command. -/
def abort (c : Conn) : Except DriverError String × Conn :=
  send GCodes.SD_ABORT c

/-! Supporting lemmas. -/

theorem startswithError_f_empty : startswithError "" = false := by decide

theorem startswithError_f_ok : startswithError "ok" = false := by decide

/-- An error-marker line is neither empty nor the bare acknowledgement. -/
theorem startswithError_ne (s : String) (h : startswithError s = true) :
    s ≠ "" ∧ s ≠ "ok" := by
  constructor
  · intro hs; rw [hs, startswithError_f_empty] at h; exact Bool.false_ne_true h
  · intro hs; rw [hs, startswithError_f_ok] at h; exact Bool.false_ne_true h

/-- Lemma: `_read_raw` touches only the incoming script. -/
theorem read_raw_state (c : Conn) :
    ((read_raw c).2).written = c.written ∧
    ((read_raw c).2).connected = c.connected := by
  unfold read_raw
  split
  · cases c.incoming with
    | nil => exact ⟨rfl, rfl⟩
    | cons e rest => cases e <;> exact ⟨rfl, rfl⟩
  · exact ⟨rfl, rfl⟩

/-- Unfolding equation: on a disconnected driver `send` raises at once and
changes nothing. -/
theorem send_eq_not_connected (g : String) (inc : List (Option String))
    (w : List String) :
    send g ⟨false, inc, w⟩ =
      (Except.error DriverError.connectionError, ⟨false, inc, w⟩) := rfl

/-- Unfolding equation: on a connected driver `send` writes the wire form
of the command and then runs `_read_response`, catching a timeout. -/
theorem send_eq_connected (g : String) (inc : List (Option String))
    (w : List String) :
    send g ⟨true, inc, w⟩ =
      (match read_response ⟨true, inc, w ++ [wire g]⟩ with
       | (Except.ok s, c2) => (Except.ok s, c2)
       | (Except.error DriverError.timeoutError, c2) => (Except.ok "", c2)
       | (Except.error e, c2) => (Except.error e, c2)) := rfl

/-- Lemma: `_read_response` touches only the incoming script. -/
theorem read_response_state (c : Conn) :
    ((read_response c).2).written = c.written ∧
    ((read_response c).2).connected = c.connected := by
  unfold read_response
  rcases h1 : read_raw c with ⟨r1, c1⟩
  have hs1 := read_raw_state c
  rw [h1] at hs1
  cases r1 with
  | error e => exact hs1
  | ok first =>
    by_cases hE : startswithError first = true
    · simp only [hE, if_true]; exact hs1
    · simp only [hE, Bool.false_eq_true, if_false]
      by_cases hOk : first = "ok"
      · simp only [hOk, if_true]
        rcases h2 : read_raw c1 with ⟨r2, c2⟩
        have hs2 := read_raw_state c1
        rw [h2] at hs2
        cases r2 with
        | ok second => exact ⟨hs2.1.trans hs1.1, hs2.2.trans hs1.2⟩
        | error e =>
          cases e <;>
            exact ⟨hs2.1.trans hs1.1, hs2.2.trans hs1.2⟩
      · simp only [hOk, if_false]; exact hs1

/-- On a connected driver, `send` appends exactly one wire command to the
write trace and leaves the connection open. -/
theorem send_state (g : String) (c : Conn) (hc : c.connected = true) :
    ((send g c).2).written = c.written ++ [wire g] ∧
    ((send g c).2).connected = true := by
  obtain ⟨b, inc, w⟩ := c
  change b = true at hc
  subst hc
  rw [send_eq_connected]
  have key := read_response_state ⟨true, inc, w ++ [wire g]⟩
  rcases h1 : read_response ⟨true, inc, w ++ [wire g]⟩ with ⟨r1, c1⟩
  rw [h1] at key
  cases r1 with
  | ok s => exact ⟨key.1, key.2⟩
  | error e => cases e <;> exact ⟨key.1, key.2⟩

/-- Whatever `send` does, it never resets the write trace: the new trace
extends the old one. -/
theorem send_written_extends (g : String) (c : Conn) :
    ∃ t, ((send g c).2).written = c.written ++ t := by
  obtain ⟨b, inc, w⟩ := c
  cases b with
  | true => exact ⟨[wire g], (send_state g ⟨true, inc, w⟩ rfl).1⟩
  | false => exact ⟨[], by rw [send_eq_not_connected]; simp⟩

/-- Lemma: `send` never flips the connected flag. -/
theorem send_connected (g : String) (c : Conn) :
    ((send g c).2).connected = c.connected := by
  obtain ⟨b, inc, w⟩ := c
  cases b with
  | true => exact (send_state g ⟨true, inc, w⟩ rfl).2
  | false => rw [send_eq_not_connected]

/-- Unfolding equation: `_read_response` on a connected driver whose next
read yields the raw line `l1`. -/
theorem read_response_eq_line (l1 : String) (rest : List (Option String))
    (w : List String) :
    read_response ⟨true, some l1 :: rest, w⟩ =
      (if startswithError (pyStrip l1) then
        (Except.error (DriverError.protocolError (pyStrip l1)),
         ⟨true, rest, w⟩)
      else if pyStrip l1 = "ok" then
        match read_raw ⟨true, rest, w⟩ with
        | (Except.ok second, c2) =>
            (Except.ok (if second ≠ "" ∧ second ≠ "ok" then second else ""),
             c2)
        | (Except.error DriverError.timeoutError, c2) => (Except.ok "", c2)
        | (Except.error e, c2) => (Except.error e, c2)
      else (Except.ok (pyStrip l1), ⟨true, rest, w⟩)) := rfl

/-- The payload `send` extracts from the part of the reply script that
follows a bare-acknowledgement first line: a second line is read, and it is
the payload exactly when it is informative (present, non-empty and not a
bare acknowledgement itself). -/
def secondPayload : List (Option String) → String
  | [] => ""
  | none :: _ => ""
  | some l2 :: _ =>
      if pyStrip l2 ≠ "" ∧ pyStrip l2 ≠ "ok" then pyStrip l2 else ""

/-- C1: if the first reply line is exactly the bare acknowledgement token
`"ok"`, `send` reads a second line; a present, non-empty second line other
than another bare `"ok"` is returned as the payload, while a timed-out
second read (script exhausted or the read event is a timeout), an empty
second line or another bare `"ok"` gives the empty payload as a normal
(`Except.ok`) outcome.  The residual script shows that exactly one further
read was consumed. -/
theorem C1_ack_then_second_line (g l1 : String) (ev : List (Option String))
    (c : Conn) (hc : c.connected = true) (hin : c.incoming = some l1 :: ev)
    (hok : pyStrip l1 = "ok") :
    (send g c).1 = Except.ok (secondPayload ev) ∧
    (send g c).2.incoming = ev.tail := by
  obtain ⟨b, inc, w⟩ := c
  change b = true at hc; subst hc
  change inc = some l1 :: ev at hin; subst hin
  rw [send_eq_connected, read_response_eq_line, hok]
  rw [if_neg (by rw [startswithError_f_ok]; exact Bool.false_ne_true)]
  rw [if_pos rfl]
  cases ev with
  | nil => exact ⟨rfl, rfl⟩
  | cons e rest =>
    cases e with
    | none => exact ⟨rfl, rfl⟩
    | some l2 => exact ⟨rfl, rfl⟩

/-- Witness for C1 at a concrete input: first line `"ok"`, second line
`"T:1/2 B:3/4"` is returned as payload. -/
theorem C1_witness :
    (send "M991" ⟨true, [some "ok", some "T:1/2 B:3/4"], []⟩).1 =
      Except.ok (secondPayload [some "T:1/2 B:3/4"]) ∧
    (send "M991" ⟨true, [some "ok", some "T:1/2 B:3/4"], []⟩).2.incoming
      = [some "T:1/2 B:3/4"].tail :=
  C1_ack_then_second_line "M991" "ok" [some "T:1/2 B:3/4"]
    ⟨true, [some "ok", some "T:1/2 B:3/4"], []⟩ rfl rfl (by decide)

/-- C2: if the first reply line begins case-insensitively with `"error"`,
`send` fails with `ProtocolError` carrying that line, the command having
been written; the residual script `rest` shows no second read was
attempted. -/
theorem C2_error_first_line (g l1 : String) (rest : List (Option String))
    (c : Conn) (hc : c.connected = true) (hin : c.incoming = some l1 :: rest)
    (he : startswithError (pyStrip l1) = true) :
    send g c = (Except.error (DriverError.protocolError (pyStrip l1)),
      ⟨true, rest, c.written ++ [wire g]⟩) := by
  obtain ⟨b, inc, w⟩ := c
  change b = true at hc; subst hc
  change inc = some l1 :: rest at hin; subst hin
  rw [send_eq_connected, read_response_eq_line, if_pos he]

/-- Witness for C2 at a concrete input: reply line `"ERROR: busy"`. -/
theorem C2_witness :
    send "M24" ⟨true, [some "ERROR: busy", some "ok"], []⟩ =
      (Except.error (DriverError.protocolError (pyStrip "ERROR: busy")),
       ⟨true, [some "ok"], [] ++ [wire "M24"]⟩) :=
  C2_error_first_line "M24" "ERROR: busy" [some "ok"]
    ⟨true, [some "ERROR: busy", some "ok"], []⟩ rfl rfl (by decide)

/-- C6: a timeout while waiting for the first reply line (the script is
exhausted, or its next event is a timeout) is caught inside `send` and
surfaces as the empty payload: a normal `Except.ok ""` result, not an
error. -/
theorem C6_first_read_timeout (g : String) (c : Conn)
    (hc : c.connected = true)
    (hto : c.incoming = [] ∨ ∃ rest, c.incoming = none :: rest) :
    (send g c).1 = Except.ok "" := by
  obtain ⟨b, inc, w⟩ := c
  change b = true at hc; subst hc
  rcases hto with h | ⟨rest, h⟩
  · change inc = [] at h; subst h; rfl
  · change inc = none :: rest at h; subst h; rfl

/-- Witness for C6 at a concrete input: connected driver, no reply. -/
theorem C6_witness : (send "M997" ⟨true, [], []⟩).1 = Except.ok "" :=
  C6_first_read_timeout "M997" ⟨true, [], []⟩ rfl (Or.inl rfl)

/-- C7: on a driver that has never been connected, `send` fails with the
not-connected error and the state — in particular the write trace — is
exactly unchanged: no partial write occurs. -/
theorem C7_send_not_connected (g : String) (c : Conn)
    (hc : c.connected = false) :
    send g c = (Except.error DriverError.connectionError, c) := by
  obtain ⟨b, inc, w⟩ := c
  change b = false at hc; subst hc
  exact send_eq_not_connected g inc w

/-- Witness for C7 at a concrete input. -/
theorem C7_witness :
    send "M991" ⟨false, [], []⟩ =
      (Except.error DriverError.connectionError, ⟨false, [], []⟩) :=
  C7_send_not_connected "M991" ⟨false, [], []⟩ rfl

/-- C8: `upload_gcode` on a path that is not an existing file fails with
`NotFound` and leaves the connection state — in particular the write
trace — exactly unchanged: no wire command is sent. -/
theorem C8_upload_not_found (name : String) (contents : List String)
    (c : Conn) :
    upload_gcode false name contents c =
      (Except.error (DriverError.notFound name), c) := rfl

/-! Claim C4: the concrete `poll` scenario. -/

/-- The reply script of the C4 scenario: the temperature query is answered
`ok` plus a payload line, and the three remaining queries reply directly
with their echoed code plus value. -/
def c4script : List (Option String) :=
  [some "ok", some "T:205.3/210.0 B:60.1/60.0", some "M27 37",
   some "M992 00:28:43", some "M997 PRINTING"]

/-- The snapshot the C4 scenario is expected to produce. -/
def c4snap (now : String) : Snapshot :=
  { temps := some { T := 205.3, Tset := 210, B := 60.1, Bset := 60 },
    progress := some 37, elapsed := some "00:28:43",
    state := some "PRINTING", stamp := some now }

/-- The same snapshot as the raw parse produces it, before numeric
normalisation. -/
def c4raw (now : String) : Snapshot :=
  { temps := some (tempsOf ("205.3".toList, "210.0".toList, "60.1".toList,
      "60.0".toList)),
    progress := some 37, elapsed := some "00:28:43",
    state := some "PRINTING", stamp := some now }

/-- C4: on the reply script `ok / T:205.3/210.0 B:60.1/60.0`, `M27 37`,
`M992 00:28:43`, `M997 PRINTING`, `poll` returns the snapshot
{temps: T 205.3, Tset 210.0, B 60.1, Bset 60.0; progress 37; elapsed
"00:28:43"; state "PRINTING"} with a non-empty stamp, and stores this
value as the driver's `latest`, whatever `latest` held before. -/
theorem C4_poll_concrete (now : String) (lat : Snapshot) (w : List String)
    (hnow : now ≠ "") :
    (poll now ⟨⟨true, c4script, w⟩, lat⟩).1 = Except.ok (c4snap now) ∧
    (poll now ⟨⟨true, c4script, w⟩, lat⟩).2.latest = c4snap now ∧
    ∃ ts, (c4snap now).stamp = some ts ∧ ts ≠ "" := by
  have e1 : decToRat "205.3".toList =
      ((205 : ℕ) : ℚ) + ((3 : ℕ) : ℚ) / (10 : ℚ) ^ (1 : ℕ) := rfl
  have e2 : decToRat "210.0".toList =
      ((210 : ℕ) : ℚ) + ((0 : ℕ) : ℚ) / (10 : ℚ) ^ (1 : ℕ) := rfl
  have e3 : decToRat "60.1".toList =
      ((60 : ℕ) : ℚ) + ((1 : ℕ) : ℚ) / (10 : ℚ) ^ (1 : ℕ) := rfl
  have e4 : decToRat "60.0".toList =
      ((60 : ℕ) : ℚ) + ((0 : ℕ) : ℚ) / (10 : ℚ) ^ (1 : ℕ) := rfl
  have hraw : c4raw now = c4snap now := by
    unfold c4raw c4snap tempsOf
    rw [e1, e2, e3, e4]
    simp only [Snapshot.mk.injEq, Option.some.injEq, Temps.mk.injEq,
      and_true, true_and]
    norm_num
  refine ⟨?_, ?_, now, rfl, hnow⟩
  · rw [← hraw]; rfl
  · rw [← hraw]; rfl

/-- Witness for C4 at a concrete timestamp. -/
theorem C4_witness :
    (poll "2024-05-01T12:00:00"
        ⟨⟨true, c4script, []⟩, emptySnapshot⟩).1 =
      Except.ok (c4snap "2024-05-01T12:00:00") ∧
    (poll "2024-05-01T12:00:00"
        ⟨⟨true, c4script, []⟩, emptySnapshot⟩).2.latest =
      c4snap "2024-05-01T12:00:00" ∧
    ∃ ts, (c4snap "2024-05-01T12:00:00").stamp = some ts ∧ ts ≠ "" :=
  C4_poll_concrete "2024-05-01T12:00:00" emptySnapshot [] (by decide)

/-! Claim C5: `latest` is only ever replaced by a fresh, timestamped,
non-empty snapshot. -/

/-- The branch analysis of the timestamp-and-store step of `poll`. -/
theorem pollFinish_cases (now : String) (d : Driver) (fresh : Snapshot)
    (c4 : Conn) :
    (pollFinish now d fresh c4).2.latest = d.latest ∨
    ((pollFinish now d fresh c4).1 =
        Except.ok ((pollFinish now d fresh c4).2.latest) ∧
     (pollFinish now d fresh c4).2.latest.stamp = some now ∧
     (pollFinish now d fresh c4).2.latest ≠ emptySnapshot) := by
  unfold pollFinish
  split
  · right
    refine ⟨rfl, rfl, fun h => ?_⟩
    have hst := congrArg Snapshot.stamp h
    exact Option.noConfusion hst
  · left; rfl

/-- C5: the driver's `latest` snapshot is only ever replaced by the
freshly assembled, timestamped, non-empty snapshot that the same call
returns — on every other path (a propagated error from one of the four
sends, or no parseable data at all) it is left exactly unchanged.  In
particular, a `poll` in which all four queries time out (the script is
exhausted) returns the empty snapshot and leaves `latest` exactly as it
was. -/
theorem C5_latest_only_replaced :
    (∀ (now : String) (d : Driver),
      (poll now d).2.latest = d.latest ∨
      ((poll now d).1 = Except.ok ((poll now d).2.latest) ∧
       (poll now d).2.latest.stamp = some now ∧
       (poll now d).2.latest ≠ emptySnapshot)) ∧
    (∀ (now : String) (lat : Snapshot) (w : List String),
      (poll now ⟨⟨true, [], w⟩, lat⟩).1 = Except.ok emptySnapshot ∧
      (poll now ⟨⟨true, [], w⟩, lat⟩).2.latest = lat) := by
  constructor
  · intro now d
    unfold poll
    rcases h1 : send GCodes.TEMP_QUERY d.conn with ⟨r1, c1⟩
    cases r1 with
    | error e => exact Or.inl rfl
    | ok s1 =>
      dsimp only
      rcases h2 : send GCodes.PROGRESS c1 with ⟨r2, c2⟩
      cases r2 with
      | error e => exact Or.inl rfl
      | ok s2 =>
        dsimp only
        rcases h3 : send GCodes.ELAPSED c2 with ⟨r3, c3⟩
        cases r3 with
        | error e => exact Or.inl rfl
        | ok s3 =>
          dsimp only
          rcases h4 : send GCodes.STATE c3 with ⟨r4, c4⟩
          cases r4 with
          | error e => exact Or.inl rfl
          | ok s4 => exact pollFinish_cases now d (assemble s1 s2 s3 s4) c4
  · intro now lat w
    exact ⟨rfl, rfl⟩

/-! Claim C9: `start_print` is exactly two wire sends, in order. -/

/-- C9: on a connected driver whose select-file command completes (its
reply is not an error-marker line), `start_print` writes exactly two wire
commands — select-file with the filename interpolated, then start/resume —
in that order, and nothing else: in particular no compensating command is
written when the second command fails after the first succeeded (the
conclusion holds whatever the reply to the start command is). -/
theorem C9_start_print_two_sends (filename : String) (c : Conn)
    (hc : c.connected = true)
    (hfirst : ∃ s, (send (GCodes.SD_SELECT_fmt filename) c).1 = Except.ok s) :
    (start_print filename c).2.written =
      c.written ++ [wire (GCodes.SD_SELECT_fmt filename),
                    wire GCodes.SD_START] := by
  unfold start_print
  rcases hfirst with ⟨s, hs⟩
  have hw1 := send_state (GCodes.SD_SELECT_fmt filename) c hc
  rcases h1 : send (GCodes.SD_SELECT_fmt filename) c with ⟨r1, c1⟩
  rw [h1] at hs hw1
  cases r1 with
  | error e => exact absurd hs (by simp)
  | ok s1 =>
    dsimp only
    have hw2 := send_state GCodes.SD_START c1 hw1.2
    rcases h2 : send GCodes.SD_START c1 with ⟨r2, c2⟩
    rw [h2] at hw2
    cases r2 with
    | error e =>
      cases e <;> · show c2.written = _
                    rw [hw2.1, hw1.1]; simp
    | ok s2 =>
      show c2.written = _
      rw [hw2.1, hw1.1]; simp

/-- Witness for C9 at a concrete input: both commands acknowledged by an
empty line. -/
theorem C9_witness :
    (start_print "part.gcode" ⟨true, [some "", some ""], []⟩).2.written =
      [] ++ [wire (GCodes.SD_SELECT_fmt "part.gcode"),
             wire GCodes.SD_START] :=
  C9_start_print_two_sends "part.gcode" ⟨true, [some "", some ""], []⟩
    rfl ⟨"", rfl⟩

/-! Claim C3: the close-file cleanup of `upload_gcode`. -/

/-- Unfolding equation for `upload_gcode` on an existing file. -/
theorem upload_gcode_eq_isfile (name : String) (contents : List String)
    (c : Conn) :
    upload_gcode true name contents c =
      (match send (GCodes.SD_BEGIN_fmt name) c with
       | (Except.error e, c1) => (Except.error e, c1)
       | (Except.ok ack, c1) =>
         if startswithError ack then
           (Except.error (DriverError.protocolError ack), c1)
         else
           upload_finally (upload_lines contents c1).1
             (upload_lines contents c1).2) := rfl

/-- Unfolding equation for one step of the streaming loop. -/
theorem upload_lines_cons (line : String) (rest : List String) (c : Conn) :
    upload_lines (line :: rest) c =
      (match send (dataCmd line) c with
       | (Except.error e, c1) => (Except.error e, c1)
       | (Except.ok resp, c1) =>
         if startswithError resp then
           (Except.error (DriverError.protocolError resp), c1)
         else upload_lines rest c1) := rfl

/-- The streaming loop sends the wire forms of a prefix of the file's
lines, keeps the connection open, and never writes anything else. -/
theorem upload_lines_trace (lines : List String) (c : Conn)
    (hc : c.connected = true) :
    ∃ k, k ≤ lines.length ∧
      ((upload_lines lines c).2).written =
        c.written ++ (lines.take k).map (fun l => wire (dataCmd l)) ∧
      ((upload_lines lines c).2).connected = true := by
  induction lines generalizing c with
  | nil => exact ⟨0, Nat.le_refl 0, by simp [upload_lines], hc⟩
  | cons line rest ih =>
    rw [upload_lines_cons]
    have hw := send_state (dataCmd line) c hc
    rcases h1 : send (dataCmd line) c with ⟨r1, c1⟩
    rw [h1] at hw
    cases r1 with
    | error e =>
      refine ⟨1, by simp, ?_, hw.2⟩
      show c1.written = _
      rw [hw.1]; simp
    | ok resp =>
      dsimp only
      by_cases hE : startswithError resp = true
      · rw [if_pos hE]
        refine ⟨1, by simp, ?_, hw.2⟩
        show c1.written = _
        rw [hw.1]; simp
      · rw [if_neg hE]
        obtain ⟨k, hk, hwr, hcn⟩ := ih c1 hw.2
        refine ⟨k + 1, by simpa using hk, ?_, hcn⟩
        rw [hwr, hw.1]
        simp [List.take_succ_cons]

/-- The `finally:` clause appends exactly one close-file wire command at
the very end of the trace, whatever outcome it has to re-raise. -/
theorem upload_finally_trace (r : Except DriverError Unit) (c : Conn)
    (hc : c.connected = true) :
    ((upload_finally r c).2).written = c.written ++ [wire GCodes.SD_END] := by
  unfold upload_finally
  have hw := send_state GCodes.SD_END c hc
  rcases h1 : send GCodes.SD_END c with ⟨r1, c1⟩
  rw [h1] at hw
  cases r1 with
  | error e => cases e <;> exact hw.1
  | ok s => exact hw.1

/-- The reply script of the C3 line-5 scenario: the open-file command and
the first four data lines are acknowledged with an empty line, the fifth
data line gets an error-marker reply, the close-file command is
acknowledged. -/
def c3script : List (Option String) :=
  [some "", some "", some "", some "", some "",
   some "error: write fail", some ""]

/-- The ten streamed lines of the C3 scenario. -/
def c3lines : List String :=
  ["G1 X1", "G1 X2", "G1 X3", "G1 X4", "G1 X5",
   "G1 X6", "G1 X7", "G1 X8", "G1 X9", "G1 X10"]

/-- C3 counterexample: an execution of `upload_gcode` on an existing
source file in which the close-file command M29 is never sent.  When the
open-file command itself receives an error-marker reply, `send` raises
`ProtocolError` before the `try/finally` block is entered, so the only
wire command of the whole run is the open-file command: M29 is not sent
on every exit path. -/
theorem C3_counterexample :
    (upload_gcode true "part.gcode" ["G1 X1"]
        ⟨true, [some "error busy"], []⟩).1 =
      Except.error (DriverError.protocolError "error busy") ∧
    (upload_gcode true "part.gcode" ["G1 X1"]
        ⟨true, [some "error busy"], []⟩).2.written =
      [wire (GCodes.SD_BEGIN_fmt "part.gcode")] ∧
    wire GCodes.SD_END ∉
      (upload_gcode true "part.gcode" ["G1 X1"]
        ⟨true, [some "error busy"], []⟩).2.written :=
  ⟨rfl, rfl, by decide⟩

/-- C3 (amended): on a connected driver, once the open-file command's
reply has been returned as a payload that is not error-prefixed (the
`try/finally` block is entered), the close-file command M29 is sent
exactly once, as the final wire command, on every exit path of the
streaming phase; in particular, in the concrete run where the reply to
streamed line 5 of 10 is error-prefixed, the transfer aborts after line 5
(lines 6–10 are never sent), M29 is still sent exactly once as the final
wire command, and `ProtocolError` propagates to the caller. -/
theorem C3_close_file_cleanup :
    (∀ (name : String) (contents : List String) (c : Conn)
       (hc : c.connected = true) (ack : String)
       (hack : (send (GCodes.SD_BEGIN_fmt name) c).1 = Except.ok ack)
       (hne : startswithError ack = false),
       ∃ k, k ≤ contents.length ∧
         (upload_gcode true name contents c).2.written =
           c.written ++ [wire (GCodes.SD_BEGIN_fmt name)]
             ++ (contents.take k).map (fun l => wire (dataCmd l))
             ++ [wire GCodes.SD_END]) ∧
    ((upload_gcode true "part.gcode" c3lines
        ⟨true, c3script, []⟩).1 =
        Except.error (DriverError.protocolError "error: write fail") ∧
     (upload_gcode true "part.gcode" c3lines
        ⟨true, c3script, []⟩).2.written =
       [wire (GCodes.SD_BEGIN_fmt "part.gcode")]
         ++ (c3lines.take 5).map (fun l => wire (dataCmd l))
         ++ [wire GCodes.SD_END] ∧
     ((upload_gcode true "part.gcode" c3lines
        ⟨true, c3script, []⟩).2.written).count (wire GCodes.SD_END) = 1) := by
  constructor
  · intro name contents c hc ack hack hne
    rw [upload_gcode_eq_isfile]
    have hw := send_state (GCodes.SD_BEGIN_fmt name) c hc
    rcases h1 : send (GCodes.SD_BEGIN_fmt name) c with ⟨r1, c1⟩
    rw [h1] at hack hw
    cases r1 with
    | error e => exact absurd hack (by simp)
    | ok a =>
      have ha : a = ack := by simpa using hack
      subst ha
      dsimp only
      rw [if_neg (by rw [hne]; exact Bool.false_ne_true)]
      obtain ⟨k, hk, hwr, hcn⟩ := upload_lines_trace contents c1 hw.2
      refine ⟨k, hk, ?_⟩
      rw [upload_finally_trace _ _ hcn, hwr, hw.1]
  · refine ⟨rfl, rfl, by decide⟩

/-- Witness for C3 at a concrete input, exhibiting the existential of the
general part at the line-5 scenario itself: the trace stops after line 5
and ends with the close-file command. -/
theorem C3_witness :
    ∃ k, k ≤ c3lines.length ∧
      (upload_gcode true "part.gcode" c3lines
          ⟨true, c3script, []⟩).2.written =
        [] ++ [wire (GCodes.SD_BEGIN_fmt "part.gcode")]
          ++ (c3lines.take k).map (fun l => wire (dataCmd l))
          ++ [wire GCodes.SD_END] :=
  C3_close_file_cleanup.1 "part.gcode" c3lines ⟨true, c3script, []⟩
    rfl "" rfl (by decide)

/-! Claim C10: error classification applies to the first reply line only. -/

/-- Unfolding equation: a connected read with a line available. -/
theorem read_raw_eq_line (l : String) (rest : List (Option String))
    (w : List String) :
    read_raw ⟨true, some l :: rest, w⟩ =
      (Except.ok (pyStrip l), ⟨true, rest, w⟩) := rfl

/-- C10: when the first reply line is the bare acknowledgement `"ok"` and
the second line begins case-insensitively with `"error"`, `send` returns
that error line as an ordinary payload (`Except.ok`), not as a
`ProtocolError`; and `upload_gcode` accordingly detects such per-line
device errors by inspecting the returned payload — in the concrete run
whose first data line is answered `ok` then `error: bad`, the loop itself
raises `ProtocolError` from the payload, stops streaming, and the
close-file command is still sent. -/
theorem C10_error_after_ack_is_payload :
    (∀ (g l1 l2 : String) (rest : List (Option String)) (c : Conn)
       (hc : c.connected = true)
       (hin : c.incoming = some l1 :: some l2 :: rest)
       (hok : pyStrip l1 = "ok")
       (he : startswithError (pyStrip l2) = true),
       (send g c).1 = Except.ok (pyStrip l2)) ∧
    ((upload_gcode true "a.gcode" ["G1 X0", "G1 X1"]
        ⟨true, [some "", some "ok", some "error: bad", some ""], []⟩).1 =
        Except.error (DriverError.protocolError "error: bad") ∧
     (upload_gcode true "a.gcode" ["G1 X0", "G1 X1"]
        ⟨true, [some "", some "ok", some "error: bad", some ""], []⟩).2.written
       = [wire (GCodes.SD_BEGIN_fmt "a.gcode"), wire (dataCmd "G1 X0"),
          wire GCodes.SD_END]) := by
  constructor
  · intro g l1 l2 rest c hc hin hok he
    obtain ⟨b, inc, w⟩ := c
    change b = true at hc; subst hc
    change inc = some l1 :: some l2 :: rest at hin; subst hin
    rw [send_eq_connected, read_response_eq_line, hok]
    rw [if_neg (by rw [startswithError_f_ok]; exact Bool.false_ne_true)]
    rw [if_pos rfl, read_raw_eq_line]
    dsimp only
    rw [if_pos (startswithError_ne (pyStrip l2) he)]
  · exact ⟨rfl, rfl⟩

/-- Witness for C10 at a concrete input: reply `ok` then `ERROR: full`. -/
theorem C10_witness :
    (send "M28 a.gcode"
        ⟨true, [some "ok", some "ERROR: full"], []⟩).1 =
      Except.ok (pyStrip "ERROR: full") :=
  C10_error_after_ack_is_payload.1 "M28 a.gcode" "ok" "ERROR: full" []
    ⟨true, [some "ok", some "ERROR: full"], []⟩ rfl rfl (by decide)
    (by decide)

end MKSWifi
